import Mathlib

/-!
Checkpoints (src/checkpoints.cpp)

A shallow embedding of the checkpoint table, the height/hash check, the
two table queries and the verification-progress estimate.

Conventions of the embedding:

* `uint256` values are the natural numbers they denote; the hexadecimal
  literals of the source are written as hexadecimal numerals.
* `std::map<K, V>` is a list of (key, value) pairs. The two checkpoint maps
  are built from their literal lists by `map_list_of`, which inserts the
  pairs one by one in key order and keeps the first value of a repeated key.
* `CBlockIndex*` is `Option CBlockIndex`, `none` being `NULL`.
* The globals read by the functions are explicit arguments: `fTestNet`,
  the value `fCheckpoints` of `GetBoolArg("-checkpoints", true)` and the
  value `nNow` of `time(NULL)`.
* `double` arithmetic is exact rational arithmetic. A division whose divisor
  is zero has no rational value; `GuessVerificationProgress` returns `none`
  there (the source yields a NaN or an infinity). Every statement about the
  estimate is therefore a statement in exact arithmetic: the binary64 result
  of the source can differ from the rational value by rounding, so that an
  order or a zero test that holds here may fail there in the last digits
  (two estimates one unit apart in the last place, a divisor that cancels
  exactly here and only almost there).
* `int` and `int64` values are unbounded integers; no claim made here
  depends on wrap-around.
-/

set_option linter.dupNamespace false

namespace Checkpoints

/-- The 256-bit hash type of uint256.h, as the number it denotes. -/
abbrev uint256 := Nat

/-- Ordered map from height to hash: `typedef std::map<int, uint256> MapCheckpoints`,
kept as the list of its pairs in increasing key order. -/
abbrev MapCheckpoints := List (Int × uint256)

/-- Insertion into an ordered map (`std::map::insert`): the pair is placed at
its position in key order, and a key already present keeps its value. -/
def mapInsert : MapCheckpoints → Int × uint256 → MapCheckpoints
  | [], kv => [kv]
  | e :: rest, kv =>
    if kv.1 < e.1 then kv :: e :: rest
    else if kv.1 = e.1 then e :: rest
    else e :: mapInsert rest kv

/-- Construction of a map from a literal list, `boost::assign::map_list_of (k, v) ...`
converted to `std::map`: the pairs are inserted in the order written. -/
def map_list_of (l : List (Int × uint256)) : MapCheckpoints :=
  l.foldl mapInsert []

/-- Lookup by key, `checkpoints.find(nHeight)`: the entry found, or `none`
for `checkpoints.end()`. -/
def mapFind : MapCheckpoints → Int → Option (Int × uint256)
  | [], _ => none
  | e :: rest, k => if e.1 = k then some e else mapFind rest k

/-- The keys of a map, in order. -/
def mapKeys (m : MapCheckpoints) : List Int := m.map Prod.fst

/-- The constant `fSigcheckVerificationFactor = 5.0`. -/
def fSigcheckVerificationFactor : ℚ := 5

/-- The record `struct CCheckpointData`. -/
structure CCheckpointData where
  mapCheckpoints : MapCheckpoints
  nTimeLastCheckpoint : Int
  nTransactionsLastCheckpoint : Int
  fTransactionsPerDay : ℚ

/-- The literal list from which the production table is built (lines 38-49). -/
def mapCheckpointsLiteral : List (Int × uint256) :=
  [ (0, 0x000000dcb4434e2148558a0a5c71e5c06d864accef97d75ac1c031405deb3371),
    (145025, 0x0316c10a202c2bde44628c8cac2d75d61f078a1d961ae1499eaa98eb643b5068),
    (179266, 0x7b102e1f37971dcd4311cc64f83fc62da0f75c22270e831be0a6c8cc38ddd5c8),
    (338643, 0xdd79a4b1ac2a91d9666d97a2654ee826c84e55495665bacaac2b9a953616f8d6),
    (406644, 0xc0f29fe22936216e6a90a4178967ba8ffa9ad78930aa1a369a6fc727a3d2f8e5),
    (845000, 0xa32d61133e22687a63c0c2769552a851a484b030cda02f8a1def5a506d368e33),
    (900000, 0x1054253e8fd7b596cdddd562619da01022024623ee72ed3b37ea909c3caa5cc7),
    (950000, 0xdd4b0d5c8ae8dca9b0fd8ebee3fdf1312c47cdf73f18bff2379d5e4e2d1e59c8),
    (966300, 0xb4d0943e70a43256e5a329e7f7450abc42cd1aa9a8f277b0ef7a990dccbbe800),
    (1004800, 0xea2e486ef9e96a02e8bfa6782cb2aa36b393783af0b4793dcaa58747f70cd71d),
    (1352360, 0xadf9abb289d6e69ca373b4c6dc5853a7c444ea6db5bc1e33b6df2c061eb9444a),
    (1719100, 0xe1572e3497370fc796c9722f28c570db392d284f574eb652cb953e39b14a0127) ]

/-- The production table `mapCheckpoints`. -/
def mapCheckpoints : MapCheckpoints := map_list_of mapCheckpointsLiteral

/-- The production record `data`. -/
def data : CCheckpointData :=
  { mapCheckpoints := mapCheckpoints
    nTimeLastCheckpoint := 1646509845
    nTransactionsLastCheckpoint := 2132261
    fTransactionsPerDay := 60000 }

/-- The literal list from which the test-network table is built (line 61). -/
def mapCheckpointsTestnetLiteral : List (Int × uint256) :=
  [ (0, 0x00000052d978f26d698e0c4dbce9f8139a69f2fbda37715149146776aeb70d5b) ]

/-- The test-network table `mapCheckpointsTestnet`. -/
def mapCheckpointsTestnet : MapCheckpoints := map_list_of mapCheckpointsTestnetLiteral

/-- The test-network record `dataTestnet`. -/
def dataTestnet : CCheckpointData :=
  { mapCheckpoints := mapCheckpointsTestnet
    nTimeLastCheckpoint := 1392351202
    nTransactionsLastCheckpoint := 0
    fTransactionsPerDay := 60000 }

/-- The selector `Checkpoints()`: the record of the active network. -/
def Checkpoints (fTestNet : Bool) : CCheckpointData :=
  if fTestNet then dataTestnet else data

/-- The check `CheckBlock(nHeight, hash)`. -/
def CheckBlock (fCheckpoints fTestNet : Bool) (nHeight : Int) (hash : uint256) : Bool :=
  if !fCheckpoints then true
  else
    let checkpoints := (Checkpoints fTestNet).mapCheckpoints
    match mapFind checkpoints nHeight with
    | none => true
    | some i => hash == i.2

/-- The two fields of `CBlockIndex` (declared in main.h) that this file reads. -/
structure CBlockIndex where
  nChainTx : Int
  nTime : Int
deriving DecidableEq, Repr

/-- Division of two `double` values in exact arithmetic; `none` when the
divisor is zero. -/
def fdiv (a b : ℚ) : Option ℚ :=
  if b = 0 then none else some (a / b)

/-- Lines 103-117 of `GuessVerificationProgress`: the estimate for a non-null
`pindex`, as a function of the record `data` bound at line 101. -/
def GuessVerificationProgressOn (data : CCheckpointData) (nNow : Int)
    (pindex : CBlockIndex) : Option ℚ :=
  if pindex.nChainTx ≤ data.nTransactionsLastCheckpoint then
    let nCheapBefore : ℚ := pindex.nChainTx
    let nCheapAfter : ℚ := ((data.nTransactionsLastCheckpoint - pindex.nChainTx : Int) : ℚ)
    let nExpensiveAfter : ℚ :=
      ((nNow - data.nTimeLastCheckpoint : Int) : ℚ) / 86400 * data.fTransactionsPerDay
    let fWorkBefore : ℚ := nCheapBefore
    let fWorkAfter : ℚ := nCheapAfter + nExpensiveAfter * fSigcheckVerificationFactor
    fdiv fWorkBefore (fWorkBefore + fWorkAfter)
  else
    let nCheapBefore : ℚ := data.nTransactionsLastCheckpoint
    let nExpensiveBefore : ℚ := ((pindex.nChainTx - data.nTransactionsLastCheckpoint : Int) : ℚ)
    let nExpensiveAfter : ℚ :=
      ((nNow - pindex.nTime : Int) : ℚ) / 86400 * data.fTransactionsPerDay
    let fWorkBefore : ℚ := nCheapBefore + nExpensiveBefore * fSigcheckVerificationFactor
    let fWorkAfter : ℚ := nExpensiveAfter * fSigcheckVerificationFactor
    fdiv fWorkBefore (fWorkBefore + fWorkAfter)

/-- The estimate `GuessVerificationProgress(pindex)`, `nNow` being the value
`time(NULL)` returns. -/
def GuessVerificationProgress (fTestNet : Bool) (nNow : Int) :
    Option CBlockIndex → Option ℚ
  | none => some 0
  | some pindex => GuessVerificationProgressOn (Checkpoints fTestNet) nNow pindex

/-- The value of the local `fWorkBefore` at the return of line 117, for a
non-null `pindex` (assigned at line 107 or line 113). -/
def fWorkBefore (data : CCheckpointData) (pindex : CBlockIndex) : ℚ :=
  if pindex.nChainTx ≤ data.nTransactionsLastCheckpoint then
    (pindex.nChainTx : ℚ)
  else
    (data.nTransactionsLastCheckpoint : ℚ) +
      ((pindex.nChainTx - data.nTransactionsLastCheckpoint : Int) : ℚ) *
        fSigcheckVerificationFactor

/-- The value of the local `fWorkAfter` at the return of line 117, for a
non-null `pindex` (assigned at line 108 or line 114). -/
def fWorkAfter (data : CCheckpointData) (nNow : Int) (pindex : CBlockIndex) : ℚ :=
  if pindex.nChainTx ≤ data.nTransactionsLastCheckpoint then
    ((data.nTransactionsLastCheckpoint - pindex.nChainTx : Int) : ℚ) +
      ((nNow - data.nTimeLastCheckpoint : Int) : ℚ) / 86400 * data.fTransactionsPerDay *
        fSigcheckVerificationFactor
  else
    ((nNow - pindex.nTime : Int) : ℚ) / 86400 * data.fTransactionsPerDay *
      fSigcheckVerificationFactor

/-- The query `GetTotalBlocksEstimate()`: `checkpoints.rbegin()->first`, the
key of the last pair in key order; `none` where the map is empty and the
source dereferences `rbegin()` of an empty map. -/
def GetTotalBlocksEstimate (fCheckpoints fTestNet : Bool) : Option Int :=
  if !fCheckpoints then some 0
  else
    let checkpoints := (Checkpoints fTestNet).mapCheckpoints
    match checkpoints.getLast? with
    | none => none
    | some e => some e.1

/-- The block index `std::map<uint256, CBlockIndex*>`, as the list of its pairs. -/
abbrev BlockIndexMap := List (uint256 × Option CBlockIndex)

/-- Lookup `mapBlockIndex.find(hash)`: the stored pointer, or `none` for `end()`. -/
def blockIndexFind : BlockIndexMap → uint256 → Option (Option CBlockIndex)
  | [], _ => none
  | e :: rest, h => if e.1 = h then some e.2 else blockIndexFind rest h

/-- The loop of `GetLastCheckpoint` over the pairs still to visit. -/
def lastCheckpointScan (mapBlockIndex : BlockIndexMap) :
    List (Int × uint256) → Option CBlockIndex
  | [] => none
  | i :: rest =>
    match blockIndexFind mapBlockIndex i.2 with
    | some t => t
    | none => lastCheckpointScan mapBlockIndex rest

/-- The query `GetLastCheckpoint(mapBlockIndex)`; `BOOST_REVERSE_FOREACH` visits
the pairs from the greatest key to the least. -/
def GetLastCheckpoint (fCheckpoints fTestNet : Bool) (mapBlockIndex : BlockIndexMap) :
    Option CBlockIndex :=
  if !fCheckpoints then none
  else
    let checkpoints := (Checkpoints fTestNet).mapCheckpoints
    lastCheckpointScan mapBlockIndex checkpoints.reverse

/-! ## Lemmas on the ordered map -/

theorem mapFind_eq_none_of_not_mem (m : MapCheckpoints) (k : Int)
    (hk : k ∉ mapKeys m) : mapFind m k = none := by
  induction m with
  | nil => rfl
  | cons e rest ih =>
    simp only [mapKeys, List.map_cons, List.mem_cons, not_or] at hk
    have hne : ¬ e.1 = k := fun h => hk.1 h.symm
    simp only [mapFind, hne, if_false]
    exact ih hk.2

theorem mapFind_of_mem (m : MapCheckpoints) (k : Int) (v : uint256)
    (hnd : (mapKeys m).Nodup) (hmem : (k, v) ∈ m) : mapFind m k = some (k, v) := by
  induction m with
  | nil => simp at hmem
  | cons e rest ih =>
    simp only [mapKeys, List.map_cons, List.nodup_cons] at hnd
    rcases List.mem_cons.mp hmem with h | h
    · subst h
      simp [mapFind]
    · have hne : ¬ e.1 = k := by
        intro he
        apply hnd.1
        rw [he]
        exact List.mem_map.mpr ⟨(k, v), h, rfl⟩
      simp only [mapFind, hne, if_false]
      exact ih hnd.2 h

theorem mapCheckpoints_eq : mapCheckpoints = mapCheckpointsLiteral := by decide

theorem mapCheckpointsTestnet_eq : mapCheckpointsTestnet = mapCheckpointsTestnetLiteral := by
  decide

theorem mapKeys_nodup (fTestNet : Bool) : (mapKeys (Checkpoints fTestNet).mapCheckpoints).Nodup := by
  cases fTestNet <;> decide

theorem mapCheckpoints_reverse_descending (fTestNet : Bool) :
    (Checkpoints fTestNet).mapCheckpoints.reverse.Pairwise (fun a b => b.1 < a.1) := by
  cases fTestNet <;> decide

theorem lastCheckpointScan_none (M : BlockIndexMap) (l : List (Int × uint256))
    (habs : ∀ e ∈ l, blockIndexFind M e.2 = none) : lastCheckpointScan M l = none := by
  induction l with
  | nil => rfl
  | cons i rest ih =>
    have hi : blockIndexFind M i.2 = none := habs i (List.mem_cons_self _ _)
    simp only [lastCheckpointScan, hi]
    exact ih (fun e he => habs e (List.mem_cons_of_mem _ he))

theorem lastCheckpointScan_greatest (M : BlockIndexMap) (l : List (Int × uint256))
    (hdesc : l.Pairwise (fun a b => b.1 < a.1))
    (hpres : ∃ e ∈ l, blockIndexFind M e.2 ≠ none) :
    ∃ e ∈ l, ∃ v, blockIndexFind M e.2 = some v ∧ lastCheckpointScan M l = v ∧
      ∀ f ∈ l, blockIndexFind M f.2 ≠ none → f.1 ≤ e.1 := by
  induction l with
  | nil =>
    obtain ⟨e, he, _⟩ := hpres
    simp at he
  | cons i rest ih =>
    rw [List.pairwise_cons] at hdesc
    cases hi : blockIndexFind M i.2 with
    | some t =>
      refine ⟨i, List.mem_cons_self _ _, t, hi, ?_, ?_⟩
      · simp only [lastCheckpointScan, hi]
      · intro f hf _
        rcases List.mem_cons.mp hf with h | h
        · rw [h]
        · exact le_of_lt (hdesc.1 f h)
    | none =>
      have hrest : ∃ e ∈ rest, blockIndexFind M e.2 ≠ none := by
        obtain ⟨e, he, hne⟩ := hpres
        rcases List.mem_cons.mp he with h | h
        · rw [h] at hne
          exact absurd hi hne
        · exact ⟨e, h, hne⟩
      obtain ⟨e, he, v, hv, hscan, hmax⟩ := ih hdesc.2 hrest
      refine ⟨e, List.mem_cons_of_mem _ he, v, hv, ?_, ?_⟩
      · simp only [lastCheckpointScan, hi]
        exact hscan
      · intro f hf hne
        rcases List.mem_cons.mp hf with h | h
        · rw [h] at hne
          exact absurd hi hne
        · exact hmax f h hne

/-! ## Closed forms of the progress estimate -/

theorem fTransactionsPerDay_eq (fTestNet : Bool) :
    (Checkpoints fTestNet).fTransactionsPerDay = 60000 := by
  cases fTestNet <;> rfl

theorem nTransactionsLastCheckpoint_nonneg (fTestNet : Bool) :
    0 ≤ (Checkpoints fTestNet).nTransactionsLastCheckpoint := by
  cases fTestNet <;> decide

/-- At or before the last checkpoint the estimate is x / (L + (now - T) * 125/36). -/
theorem progress_before (fTestNet : Bool) (nNow x t : Int)
    (hle : x ≤ (Checkpoints fTestNet).nTransactionsLastCheckpoint) :
    GuessVerificationProgress fTestNet nNow (some ⟨x, t⟩) =
      fdiv (x : ℚ)
        (((Checkpoints fTestNet).nTransactionsLastCheckpoint : ℚ) +
          ((nNow : ℚ) - ((Checkpoints fTestNet).nTimeLastCheckpoint : ℚ)) * (125 / 36)) := by
  simp only [GuessVerificationProgress, GuessVerificationProgressOn, if_pos hle,
    fSigcheckVerificationFactor, fTransactionsPerDay_eq]
  congr 1
  push_cast
  ring

/-- Past the last checkpoint the estimate is W / (W + (now - t) * 125/36) with
W = L + 5 (x - L). -/
theorem progress_after (fTestNet : Bool) (nNow x t : Int)
    (hlt : (Checkpoints fTestNet).nTransactionsLastCheckpoint < x) :
    GuessVerificationProgress fTestNet nNow (some ⟨x, t⟩) =
      fdiv
        (((Checkpoints fTestNet).nTransactionsLastCheckpoint : ℚ) +
          5 * ((x : ℚ) - ((Checkpoints fTestNet).nTransactionsLastCheckpoint : ℚ)))
        (((Checkpoints fTestNet).nTransactionsLastCheckpoint : ℚ) +
          5 * ((x : ℚ) - ((Checkpoints fTestNet).nTransactionsLastCheckpoint : ℚ)) +
          ((nNow : ℚ) - (t : ℚ)) * (125 / 36)) := by
  have hnle : ¬ x ≤ (Checkpoints fTestNet).nTransactionsLastCheckpoint := not_le.mpr hlt
  simp only [GuessVerificationProgress, GuessVerificationProgressOn, if_neg hnle,
    fSigcheckVerificationFactor, fTransactionsPerDay_eq]
  congr 1 <;> push_cast <;> ring

theorem fdiv_of_pos (a b : ℚ) (hb : 0 < b) : fdiv a b = some (a / b) := by
  simp [fdiv, ne_of_gt hb]

theorem fdiv_isSome_iff (a b : ℚ) : (fdiv a b).isSome = true ↔ b ≠ 0 := by
  unfold fdiv
  split <;> simp_all

/-- The three order facts behind monotonicity, over the rationals: D is the
divisor before the checkpoint, c the remaining work past it. -/
theorem div_mono_same (a b d : ℚ) (hd : 0 < d) (hab : a ≤ b) : a / d ≤ b / d := by
  rw [div_le_div_iff₀ hd hd]
  nlinarith

theorem div_mono_after (v w c : ℚ) (hv : 0 < v) (hvw : v ≤ w) (hc : 0 ≤ c) :
    v / (v + c) ≤ w / (w + c) := by
  have h1 : 0 < v + c := by linarith
  have h2 : 0 < w + c := by linarith
  rw [div_le_div_iff₀ h1 h2]
  nlinarith

theorem div_mono_across (a l w c1 c2 : ℚ) (hl : 0 ≤ l) (hal : a ≤ l) (hlw : l < w)
    (hc2 : 0 ≤ c2) (hc : c2 ≤ c1) (hd : 0 < l + c1) :
    a / (l + c1) ≤ w / (w + c2) := by
  have hw : 0 < w := by linarith
  have h2 : 0 < w + c2 := by linarith
  rw [div_le_div_iff₀ hd h2]
  have e1 : a * w ≤ l * w := by nlinarith
  have e2 : a * c2 ≤ w * c1 := by
    rcases le_or_lt 0 a with ha | ha
    · have : a * c2 ≤ w * c2 := by nlinarith
      have : w * c2 ≤ w * c1 := by nlinarith
      linarith
    · have : a * c2 ≤ 0 := by nlinarith
      have : 0 ≤ w * c1 := by nlinarith
      linarith
  nlinarith

/-- The estimate is the guarded quotient of the two work terms of the source. -/
theorem GuessVerificationProgressOn_eq_fdiv (d : CCheckpointData) (nNow : Int)
    (pindex : CBlockIndex) :
    GuessVerificationProgressOn d nNow pindex =
      fdiv (fWorkBefore d pindex) (fWorkBefore d pindex + fWorkAfter d nNow pindex) := by
  unfold GuessVerificationProgressOn fWorkBefore fWorkAfter
  split <;> rfl

theorem fdiv_eq_some_iff (a b v : ℚ) : fdiv a b = some v ↔ b ≠ 0 ∧ a / b = v := by
  unfold fdiv
  split <;> simp_all

/-! ## Construction of a map from a strictly increasing literal list -/

theorem mapInsert_append (m : MapCheckpoints) (kv : Int × uint256)
    (hlt : ∀ e ∈ m, e.1 < kv.1) : mapInsert m kv = m ++ [kv] := by
  induction m with
  | nil => rfl
  | cons e rest ih =>
    have he : e.1 < kv.1 := hlt e (List.mem_cons_self _ _)
    have h1 : ¬ kv.1 < e.1 := not_lt.mpr (le_of_lt he)
    have h2 : ¬ kv.1 = e.1 := fun h => (ne_of_lt he) h.symm
    simp only [mapInsert, h1, h2, if_false, List.cons_append]
    rw [ih (fun f hf => hlt f (List.mem_cons_of_mem _ hf))]

theorem foldl_mapInsert_sorted (l : List (Int × uint256)) :
    ∀ acc : MapCheckpoints, (acc ++ l).Pairwise (fun a b => a.1 < b.1) →
      l.foldl mapInsert acc = acc ++ l := by
  induction l with
  | nil =>
    intro acc _
    simp
  | cons x xs ih =>
    intro acc hs
    have hacc : ∀ e ∈ acc, e.1 < x.1 := by
      intro e he
      exact (List.pairwise_append.mp hs).2.2 e he x (List.mem_cons_self _ _)
    have hs2 : ((acc ++ [x]) ++ xs).Pairwise (fun a b => a.1 < b.1) := by
      simpa using hs
    rw [List.foldl_cons, mapInsert_append acc x hacc, ih (acc ++ [x]) hs2]
    simp

/-- A strictly increasing literal list is its own ordered map: no pair is
dropped and none is overwritten. -/
theorem map_list_of_sorted (l : List (Int × uint256))
    (hs : l.Pairwise (fun a b => a.1 < b.1)) : map_list_of l = l := by
  unfold map_list_of
  rw [foldl_mapInsert_sorted l [] (by simpa using hs)]
  simp

theorem mapKeys_nodup_of_sorted (l : List (Int × uint256))
    (hs : l.Pairwise (fun a b => a.1 < b.1)) : (mapKeys l).Nodup := by
  unfold mapKeys List.Nodup
  rw [List.pairwise_map]
  exact hs.imp (fun h => ne_of_lt h)

/-! ## The height/hash check and the table queries -/

/-- C1: with enforcement enabled, on either network and for every entry (h, H) of
the active table, CheckBlock(h, x) is true exactly when x = H. -/
theorem C1_CheckBlock_entry_iff (fTestNet : Bool) (h : Int) (H x : uint256)
    (hmem : (h, H) ∈ (Checkpoints fTestNet).mapCheckpoints) :
    CheckBlock true fTestNet h x = true ↔ x = H := by
  have hfind := mapFind_of_mem _ h H (mapKeys_nodup fTestNet) hmem
  simp [CheckBlock, hfind]

theorem C1_CheckBlock_entry_iff_witness :
    ((845000, 0xa32d61133e22687a63c0c2769552a851a484b030cda02f8a1def5a506d368e33) ∈
        (Checkpoints false).mapCheckpoints) ∧
      (CheckBlock true false 845000 7 = true ↔
        7 = 0xa32d61133e22687a63c0c2769552a851a484b030cda02f8a1def5a506d368e33) :=
  ⟨by decide, C1_CheckBlock_entry_iff false 845000 _ 7 (by decide)⟩

/-- C2: on either network, with enforcement enabled or not, CheckBlock is true for
every hash at every height (negative ones included) that is not a key of the
active table. -/
theorem C2_CheckBlock_absent_height (fCheckpoints fTestNet : Bool) (nHeight : Int)
    (hash : uint256) (habs : nHeight ∉ mapKeys (Checkpoints fTestNet).mapCheckpoints) :
    CheckBlock fCheckpoints fTestNet nHeight hash = true := by
  have hfind := mapFind_eq_none_of_not_mem _ nHeight habs
  cases fCheckpoints <;> simp [CheckBlock, hfind]

theorem C2_CheckBlock_absent_height_witness :
    ((-3 : Int) ∉ mapKeys (Checkpoints false).mapCheckpoints) ∧
      CheckBlock true false (-3) 0 = true :=
  ⟨by decide, C2_CheckBlock_absent_height true false (-3) 0 (by decide)⟩

/-- C3: with the "-checkpoints" option disabled, on either network, CheckBlock is
true for every height and hash, GetTotalBlocksEstimate is 0 and GetLastCheckpoint
is NULL for every block index. -/
theorem C3_disabled (fTestNet : Bool) :
    (∀ (nHeight : Int) (hash : uint256), CheckBlock false fTestNet nHeight hash = true) ∧
      GetTotalBlocksEstimate false fTestNet = some 0 ∧
      (∀ mapBlockIndex : BlockIndexMap, GetLastCheckpoint false fTestNet mapBlockIndex = none) :=
  ⟨fun _ _ => rfl, rfl, fun _ => rfl⟩

/-- C4: with enforcement enabled, for every block index M: if no hash of the
active table is a key of M, GetLastCheckpoint(M) is NULL; otherwise it is the
value M stores at the hash of an entry present in M whose height is the greatest
among the entries whose hash is a key of M. -/
theorem C4_GetLastCheckpoint_greatest (fTestNet : Bool) (M : BlockIndexMap) :
    ((∀ e ∈ (Checkpoints fTestNet).mapCheckpoints, blockIndexFind M e.2 = none) →
        GetLastCheckpoint true fTestNet M = none) ∧
      ((∃ e ∈ (Checkpoints fTestNet).mapCheckpoints, blockIndexFind M e.2 ≠ none) →
        ∃ e ∈ (Checkpoints fTestNet).mapCheckpoints, ∃ v,
          blockIndexFind M e.2 = some v ∧ GetLastCheckpoint true fTestNet M = v ∧
          ∀ f ∈ (Checkpoints fTestNet).mapCheckpoints,
            blockIndexFind M f.2 ≠ none → f.1 ≤ e.1) := by
  constructor
  · intro habs
    simp only [GetLastCheckpoint, Bool.not_true, Bool.false_eq_true, if_false]
    exact lastCheckpointScan_none M _ (fun e he => habs e (List.mem_reverse.mp he))
  · intro hpres
    have hpres2 : ∃ e ∈ (Checkpoints fTestNet).mapCheckpoints.reverse,
        blockIndexFind M e.2 ≠ none := by
      obtain ⟨e, he, hne⟩ := hpres
      exact ⟨e, List.mem_reverse.mpr he, hne⟩
    obtain ⟨e, he, v, hv, hscan, hmax⟩ :=
      lastCheckpointScan_greatest M _ (mapCheckpoints_reverse_descending fTestNet) hpres2
    refine ⟨e, List.mem_reverse.mp he, v, hv, ?_, ?_⟩
    · simp only [GetLastCheckpoint, Bool.not_true, Bool.false_eq_true, if_false]
      exact hscan
    · intro f hf hne
      exact hmax f (List.mem_reverse.mpr hf) hne

theorem C4_GetLastCheckpoint_greatest_witness :
    (∃ e ∈ (Checkpoints false).mapCheckpoints,
        blockIndexFind
          [(0x0316c10a202c2bde44628c8cac2d75d61f078a1d961ae1499eaa98eb643b5068, some ⟨5, 6⟩),
           (0xa32d61133e22687a63c0c2769552a851a484b030cda02f8a1def5a506d368e33, some ⟨7, 8⟩),
           (12345, some ⟨9, 10⟩)] e.2 ≠ none) ∧
      ∃ e ∈ (Checkpoints false).mapCheckpoints, ∃ v,
        blockIndexFind
          [(0x0316c10a202c2bde44628c8cac2d75d61f078a1d961ae1499eaa98eb643b5068, some ⟨5, 6⟩),
           (0xa32d61133e22687a63c0c2769552a851a484b030cda02f8a1def5a506d368e33, some ⟨7, 8⟩),
           (12345, some ⟨9, 10⟩)] e.2 = some v ∧
        GetLastCheckpoint true false
          [(0x0316c10a202c2bde44628c8cac2d75d61f078a1d961ae1499eaa98eb643b5068, some ⟨5, 6⟩),
           (0xa32d61133e22687a63c0c2769552a851a484b030cda02f8a1def5a506d368e33, some ⟨7, 8⟩),
           (12345, some ⟨9, 10⟩)] = v ∧
        ∀ f ∈ (Checkpoints false).mapCheckpoints,
          blockIndexFind
            [(0x0316c10a202c2bde44628c8cac2d75d61f078a1d961ae1499eaa98eb643b5068, some ⟨5, 6⟩),
             (0xa32d61133e22687a63c0c2769552a851a484b030cda02f8a1def5a506d368e33, some ⟨7, 8⟩),
             (12345, some ⟨9, 10⟩)] f.2 ≠ none → f.1 ≤ e.1 :=
  ⟨by decide, (C4_GetLastCheckpoint_greatest false _).2 (by decide)⟩

/-- C5: with enforcement enabled, GetTotalBlocksEstimate returns the greatest key
of the active table, both tables being non-empty: 1719100 on the production
network and 0 on the test network, whose table has the single key 0. -/
theorem C5_GetTotalBlocksEstimate_max :
    (∀ fTestNet : Bool, ∃ m : Int,
        GetTotalBlocksEstimate true fTestNet = some m ∧
        m ∈ mapKeys (Checkpoints fTestNet).mapCheckpoints ∧
        ∀ k ∈ mapKeys (Checkpoints fTestNet).mapCheckpoints, k ≤ m) ∧
      mapCheckpoints ≠ [] ∧ mapCheckpointsTestnet ≠ [] ∧
      GetTotalBlocksEstimate true false = some 1719100 ∧
      GetTotalBlocksEstimate true true = some 0 ∧
      mapCheckpointsTestnet.length = 1 ∧ mapKeys mapCheckpointsTestnet = [0] := by
  refine ⟨?_, by decide, by decide, by decide, by decide, by decide, by decide⟩
  intro fTestNet
  cases fTestNet
  · exact ⟨1719100, by decide, by decide, by decide⟩
  · exact ⟨0, by decide, by decide, by decide⟩

/-- C6: on the production network with enforcement enabled, CheckBlock at height
845000 accepts the hash 0xa32d6113...368e33 and rejects the zero hash; on the test
network both calls return true, 845000 not being a key of its table. -/
theorem C6_CheckBlock_845000 :
    CheckBlock true false 845000
        0xa32d61133e22687a63c0c2769552a851a484b030cda02f8a1def5a506d368e33 = true ∧
      CheckBlock true false 845000 0 = false ∧
      CheckBlock true true 845000
        0xa32d61133e22687a63c0c2769552a851a484b030cda02f8a1def5a506d368e33 = true ∧
      CheckBlock true true 845000 0 = true ∧
      (845000 : Int) ∉ mapKeys (Checkpoints true).mapCheckpoints := by
  decide

/-! ## The verification-progress estimate -/

/-- C7 as stated fails on the production network: the estimate strictly
decreases from count 0 to count 1 when the clock is well before the last
checkpoint time; from count L to count L + 1 when the node timestamp is before
the last checkpoint time; and from count L + 1 to count L + 2 when the node
timestamp is one hour ahead of the clock (L = 2132261). -/
theorem C7_progress_not_monotone :
    (GuessVerificationProgress false 1645000000 (some ⟨0, 1645000000⟩) = some 0 ∧
      GuessVerificationProgress false 1645000000 (some ⟨1, 1645000000⟩) =
        some (-36 / 111969229) ∧
      (-36 / 111969229 : ℚ) < 0) ∧
    (GuessVerificationProgress false 1646600000 (some ⟨2132261, 1392351202⟩) =
        some (76761396 / 88030771) ∧
      GuessVerificationProgress false 1646600000 (some ⟨2132262, 1392351202⟩) =
        some (38380788 / 15928930663) ∧
      (38380788 / 15928930663 : ℚ) < 76761396 / 88030771) ∧
    (GuessVerificationProgress false 1700000000 (some ⟨2132262, 1700003600⟩) =
        some (1066133 / 1059883) ∧
      GuessVerificationProgress false 1700000000 (some ⟨2132263, 1700003600⟩) =
        some (2132271 / 2119771) ∧
      (2132271 / 2119771 : ℚ) < 1066133 / 1059883) := by
  refine ⟨⟨?_, ?_, ?_⟩, ⟨?_, ?_, ?_⟩, ⟨?_, ?_, ?_⟩⟩ <;>
    norm_num [GuessVerificationProgress, GuessVerificationProgressOn, Checkpoints, data, fdiv,
      fSigcheckVerificationFactor]

/-- C7 (amended), in exact arithmetic (the rounding of the binary64 operations
left aside): on either network, when the node timestamp t lies between the
last checkpoint time T and the clock (T ≤ t ≤ now, T < now), the exact value
of the estimate exists and is non-decreasing in the transaction count: for
x1 ≤ x2 the exact estimate at x1 is at most the exact estimate at x2, also when
x1 and x2 lie on opposite sides of the last-checkpoint transaction count.
Nothing is said of the rounded binary64 results, which can differ in the last
digit. -/
theorem C7_progress_monotone_consistent_clock (fTestNet : Bool) (nNow t x1 x2 : Int)
    (hTt : (Checkpoints fTestNet).nTimeLastCheckpoint ≤ t) (htn : t ≤ nNow)
    (hTn : (Checkpoints fTestNet).nTimeLastCheckpoint < nNow) (hx : x1 ≤ x2) :
    ∃ p1 p2 : ℚ,
      GuessVerificationProgress fTestNet nNow (some ⟨x1, t⟩) = some p1 ∧
      GuessVerificationProgress fTestNet nNow (some ⟨x2, t⟩) = some p2 ∧ p1 ≤ p2 := by
  have hL : (0 : ℚ) ≤ ((Checkpoints fTestNet).nTransactionsLastCheckpoint : ℚ) := by
    exact_mod_cast nTransactionsLastCheckpoint_nonneg fTestNet
  have hTtq : ((Checkpoints fTestNet).nTimeLastCheckpoint : ℚ) ≤ (t : ℚ) := by
    exact_mod_cast hTt
  have htnq : (t : ℚ) ≤ (nNow : ℚ) := by exact_mod_cast htn
  have hTnq : ((Checkpoints fTestNet).nTimeLastCheckpoint : ℚ) < (nNow : ℚ) := by
    exact_mod_cast hTn
  have hxq : (x1 : ℚ) ≤ (x2 : ℚ) := by exact_mod_cast hx
  have hc1 : (0 : ℚ) <
      ((nNow : ℚ) - ((Checkpoints fTestNet).nTimeLastCheckpoint : ℚ)) * (125 / 36) := by
    apply mul_pos <;> linarith
  have hc2 : (0 : ℚ) ≤ ((nNow : ℚ) - (t : ℚ)) * (125 / 36) := by
    apply mul_nonneg <;> linarith
  have hc : ((nNow : ℚ) - (t : ℚ)) * (125 / 36) ≤
      ((nNow : ℚ) - ((Checkpoints fTestNet).nTimeLastCheckpoint : ℚ)) * (125 / 36) := by
    linarith
  rcases le_or_lt x2 (Checkpoints fTestNet).nTransactionsLastCheckpoint with h2 | h2
  · have h1 : x1 ≤ (Checkpoints fTestNet).nTransactionsLastCheckpoint := le_trans hx h2
    rw [progress_before fTestNet nNow x1 t h1, progress_before fTestNet nNow x2 t h2,
      fdiv_of_pos _ _ (by linarith), fdiv_of_pos _ _ (by linarith)]
    exact ⟨_, _, rfl, rfl, div_mono_same _ _ _ (by linarith) hxq⟩
  · have h2q : ((Checkpoints fTestNet).nTransactionsLastCheckpoint : ℚ) < (x2 : ℚ) := by
      exact_mod_cast h2
    rcases le_or_lt x1 (Checkpoints fTestNet).nTransactionsLastCheckpoint with h1 | h1
    · have h1q : (x1 : ℚ) ≤ ((Checkpoints fTestNet).nTransactionsLastCheckpoint : ℚ) := by
        exact_mod_cast h1
      rw [progress_before fTestNet nNow x1 t h1, progress_after fTestNet nNow x2 t h2,
        fdiv_of_pos _ _ (by linarith), fdiv_of_pos _ _ (by linarith)]
      exact ⟨_, _, rfl, rfl,
        div_mono_across _ _ _ _ _ hL h1q (by linarith) hc2 hc (by linarith)⟩
    · have h1q : ((Checkpoints fTestNet).nTransactionsLastCheckpoint : ℚ) < (x1 : ℚ) := by
        exact_mod_cast h1
      rw [progress_after fTestNet nNow x1 t h1, progress_after fTestNet nNow x2 t h2,
        fdiv_of_pos _ _ (by linarith), fdiv_of_pos _ _ (by linarith)]
      exact ⟨_, _, rfl, rfl, div_mono_after _ _ _ (by linarith) (by linarith) hc2⟩

theorem C7_progress_monotone_consistent_clock_witness :
    ((Checkpoints false).nTimeLastCheckpoint ≤ 1650000000) ∧
      ((1650000000 : Int) ≤ 1700000000) ∧
      ((Checkpoints false).nTimeLastCheckpoint < 1700000000) ∧
      ((2132261 : Int) ≤ 2132262) ∧
      ∃ p1 p2 : ℚ,
        GuessVerificationProgress false 1700000000 (some ⟨2132261, 1650000000⟩) = some p1 ∧
        GuessVerificationProgress false 1700000000 (some ⟨2132262, 1650000000⟩) = some p2 ∧
        p1 ≤ p2 :=
  ⟨by decide, by decide, by decide, by decide,
    C7_progress_monotone_consistent_clock false 1700000000 1650000000 2132261 2132262
      (by decide) (by decide) (by decide) (by decide)⟩

/-- C8: for a non-null node with transaction count x and timestamp t, L, T and r
being the last-checkpoint transaction count, the last-checkpoint time and the
transactions per day of the active table: if x ≤ L the estimate is
x / (x + (L - x) + (now - T)/86400 * r * 5), whatever t is; if x > L it is
(L + 5(x - L)) / (L + 5(x - L) + (now - t)/86400 * r * 5), whatever T is. -/
theorem C8_progress_formula (fTestNet : Bool) (nNow x t : Int) :
    (x ≤ (Checkpoints fTestNet).nTransactionsLastCheckpoint →
        GuessVerificationProgress fTestNet nNow (some ⟨x, t⟩) =
          fdiv (x : ℚ)
            ((x : ℚ) + (((Checkpoints fTestNet).nTransactionsLastCheckpoint : ℚ) - (x : ℚ)) +
              ((nNow : ℚ) - ((Checkpoints fTestNet).nTimeLastCheckpoint : ℚ)) / 86400 *
                (Checkpoints fTestNet).fTransactionsPerDay * 5) ∧
        ∀ u : Int, GuessVerificationProgress fTestNet nNow (some ⟨x, u⟩) =
          GuessVerificationProgress fTestNet nNow (some ⟨x, t⟩)) ∧
      ((Checkpoints fTestNet).nTransactionsLastCheckpoint < x →
        GuessVerificationProgress fTestNet nNow (some ⟨x, t⟩) =
          fdiv
            (((Checkpoints fTestNet).nTransactionsLastCheckpoint : ℚ) +
              5 * ((x : ℚ) - ((Checkpoints fTestNet).nTransactionsLastCheckpoint : ℚ)))
            (((Checkpoints fTestNet).nTransactionsLastCheckpoint : ℚ) +
              5 * ((x : ℚ) - ((Checkpoints fTestNet).nTransactionsLastCheckpoint : ℚ)) +
              ((nNow : ℚ) - (t : ℚ)) / 86400 *
                (Checkpoints fTestNet).fTransactionsPerDay * 5) ∧
        ∀ U : Int,
          GuessVerificationProgressOn
              { Checkpoints fTestNet with nTimeLastCheckpoint := U } nNow ⟨x, t⟩ =
            GuessVerificationProgress fTestNet nNow (some ⟨x, t⟩)) := by
  constructor
  · intro hle
    constructor
    · simp only [GuessVerificationProgress, GuessVerificationProgressOn, if_pos hle,
        fSigcheckVerificationFactor]
      congr 1
      push_cast
      ring
    · intro u
      simp only [GuessVerificationProgress, GuessVerificationProgressOn, if_pos hle]
  · intro hlt
    have hnle : ¬ x ≤ (Checkpoints fTestNet).nTransactionsLastCheckpoint := not_le.mpr hlt
    constructor
    · simp only [GuessVerificationProgress, GuessVerificationProgressOn, if_neg hnle,
        fSigcheckVerificationFactor]
      congr 1 <;> push_cast <;> ring
    · intro U
      simp only [GuessVerificationProgress, GuessVerificationProgressOn, if_neg hnle]

theorem C8_progress_formula_witness :
    ((100 : Int) ≤ (Checkpoints false).nTransactionsLastCheckpoint) ∧
      GuessVerificationProgress false 1700000000 (some ⟨100, 5⟩) =
        fdiv (((100 : Int) : ℚ))
          ((((100 : Int) : ℚ)) + (((Checkpoints false).nTransactionsLastCheckpoint : ℚ) -
              (((100 : Int) : ℚ))) +
            ((((1700000000 : Int) : ℚ)) - ((Checkpoints false).nTimeLastCheckpoint : ℚ)) / 86400 *
              (Checkpoints false).fTransactionsPerDay * 5) :=
  ⟨by decide, ((C8_progress_formula false 1700000000 100 5).1 (by decide)).1⟩

/-- C9 as stated fails on the test network: the divisor is zero, and the
estimate has no value, for a node with count 0 when the clock equals the last
checkpoint time, and for a node with count 25 whose timestamp is 36 seconds
ahead of the clock. -/
theorem C9_divisor_zero_testnet :
    GuessVerificationProgress true 1392351202 (some ⟨0, 1392351202⟩) = none ∧
      GuessVerificationProgress true 1700000000 (some ⟨25, 1700000036⟩) = none := by
  constructor <;>
    norm_num [GuessVerificationProgress, GuessVerificationProgressOn, Checkpoints, dataTestnet,
      fdiv, fSigcheckVerificationFactor]

/-- C9 (amended), in exact arithmetic (the rounding of the binary64 operations
left aside): on the production network the exact divisor is non-zero and the
quotient is a definite number for every non-null node and every clock value; on
the test network the exact divisor of a node with count x and timestamp t is
non-zero, and the quotient a definite number, exactly when neither
(x ≤ 0 and now = 1392351202) nor (x > 0 and 36 x = 25 (t - now)) holds. Nothing
is said of the rounded binary64 divisor, which can miss an exact
cancellation. -/
theorem C9_progress_defined (nNow x t : Int) :
    (GuessVerificationProgress false nNow (some ⟨x, t⟩)).isSome = true ∧
      ((GuessVerificationProgress true nNow (some ⟨x, t⟩)).isSome = true ↔
        ¬ (x ≤ 0 ∧ nNow = 1392351202) ∧ ¬ (0 < x ∧ 36 * x = 25 * (t - nNow))) := by
  constructor
  · rcases le_or_lt x (Checkpoints false).nTransactionsLastCheckpoint with h | h
    · rw [progress_before false nNow x t h, fdiv_isSome_iff]
      intro hz
      have hq : (((36 * 2132261 + 125 * (nNow - 1646509845) : Int)) : ℚ) = 0 := by
        simp only [Checkpoints, data] at hz
        push_cast
        push_cast at hz
        linarith
      have hi : (36 * 2132261 + 125 * (nNow - 1646509845) : Int) = 0 := by exact_mod_cast hq
      omega
    · rw [progress_after false nNow x t h, fdiv_isSome_iff]
      intro hz
      have hq : (((36 * 2132261 + 180 * (x - 2132261) + 125 * (nNow - t) : Int)) : ℚ) = 0 := by
        simp only [Checkpoints, data] at hz
        push_cast
        push_cast at hz
        linarith
      have hi : (36 * 2132261 + 180 * (x - 2132261) + 125 * (nNow - t) : Int) = 0 := by
        exact_mod_cast hq
      omega
  · rcases le_or_lt x (Checkpoints true).nTransactionsLastCheckpoint with h | h
    · have hx : x ≤ 0 := h
      rw [progress_before true nNow x t h, fdiv_isSome_iff]
      simp only [Checkpoints, dataTestnet]
      constructor
      · intro hne
        refine ⟨fun hc => hne ?_, fun hc => by omega⟩
        rw [hc.2]
        norm_num
      · intro hcond hz
        apply hcond.1
        refine ⟨hx, ?_⟩
        have hq : (((nNow - 1392351202 : Int)) : ℚ) = 0 := by
          push_cast
          push_cast at hz
          linarith
        have hi : (nNow - 1392351202 : Int) = 0 := by exact_mod_cast hq
        omega
    · have hx : 0 < x := h
      rw [progress_after true nNow x t h, fdiv_isSome_iff]
      simp only [Checkpoints, dataTestnet]
      constructor
      · intro hne
        refine ⟨fun hc => by omega, fun hc => hne ?_⟩
        have hq : ((36 * x : Int) : ℚ) = ((25 * (t - nNow) : Int) : ℚ) := by rw [hc.2]
        push_cast at hq
        push_cast
        linarith
      · intro hcond hz
        apply hcond.2
        refine ⟨hx, ?_⟩
        have hq : ((36 * x : Int) : ℚ) = ((25 * (t - nNow) : Int) : ℚ) := by
          push_cast
          push_cast at hz
          linarith
        exact_mod_cast hq

/-- C10: GuessVerificationProgress(NULL) is exactly 0, on either network and for
every value of the clock. -/
theorem C10_progress_null (fTestNet : Bool) (nNow : Int) :
    GuessVerificationProgress fTestNet nNow none = some 0 :=
  rfl

/-- C11: the estimate is not clamped. On the production network a node past
the last checkpoint whose timestamp is one hour ahead of the clock has an
estimate strictly greater than 1, and a node with count 1 seen at a clock value
well before the last checkpoint time has a strictly negative estimate. -/
theorem C11_progress_not_clamped :
    (∃ (fTestNet : Bool) (nNow : Int) (pindex : CBlockIndex) (v : ℚ),
        (Checkpoints fTestNet).nTransactionsLastCheckpoint < pindex.nChainTx ∧
        nNow < pindex.nTime ∧
        GuessVerificationProgress fTestNet nNow (some pindex) = some v ∧ 1 < v) ∧
      (∃ (fTestNet : Bool) (nNow : Int) (pindex : CBlockIndex) (v : ℚ),
        GuessVerificationProgress fTestNet nNow (some pindex) = some v ∧ v < 0) := by
  constructor
  · refine ⟨false, 1700000000, ⟨2132262, 1700003600⟩, 1066133 / 1059883, by decide, by decide,
      ?_, by norm_num⟩
    norm_num [GuessVerificationProgress, GuessVerificationProgressOn, Checkpoints, data, fdiv,
      fSigcheckVerificationFactor]
  · refine ⟨false, 1645000000, ⟨1, 1645000000⟩, -36 / 111969229, ?_, by norm_num⟩
    norm_num [GuessVerificationProgress, GuessVerificationProgressOn, Checkpoints, data, fdiv,
      fSigcheckVerificationFactor]

/-- C12: on the test network (single entry at height 0, last-checkpoint
transaction count 0, 60000 transactions per day, factor 5), for every node with
transaction count 0, whatever its timestamp, and every clock value other than
the last-checkpoint time 1392351202, work-done is 0 and the estimate is
exactly 0. -/
theorem C12_testnet_zero_count (nNow t : Int) (hnow : nNow ≠ 1392351202) :
    mapCheckpointsTestnet =
        [(0, 0x00000052d978f26d698e0c4dbce9f8139a69f2fbda37715149146776aeb70d5b)] ∧
      (Checkpoints true).nTransactionsLastCheckpoint = 0 ∧
      (Checkpoints true).nTimeLastCheckpoint = 1392351202 ∧
      (Checkpoints true).fTransactionsPerDay = 60000 ∧
      fSigcheckVerificationFactor = 5 ∧
      fWorkBefore (Checkpoints true) ⟨0, t⟩ = 0 ∧
      GuessVerificationProgress true nNow (some ⟨0, t⟩) = some 0 := by
  refine ⟨by decide, rfl, rfl, rfl, rfl, ?_, ?_⟩
  · simp [fWorkBefore, Checkpoints, dataTestnet]
  · have hle : (0 : Int) ≤ (Checkpoints true).nTransactionsLastCheckpoint := by decide
    rw [progress_before true nNow 0 t hle, fdiv_eq_some_iff]
    have hq : ((nNow : ℚ) - 1392351202) ≠ 0 := by
      intro hz
      apply hnow
      have : (nNow : ℚ) = ((1392351202 : Int) : ℚ) := by
        push_cast
        linarith
      exact_mod_cast this
    constructor
    · simp only [Checkpoints, dataTestnet]
      intro hz
      apply hq
      push_cast at hz
      linarith
    · simp

theorem C12_testnet_zero_count_witness :
    ((1700000000 : Int) ≠ 1392351202) ∧
      fWorkBefore (Checkpoints true) ⟨0, 1234⟩ = 0 ∧
      GuessVerificationProgress true 1700000000 (some ⟨0, 1234⟩) = some 0 :=
  ⟨by decide,
    (C12_testnet_zero_count 1700000000 1234 (by decide)).2.2.2.2.2.1,
    (C12_testnet_zero_count 1700000000 1234 (by decide)).2.2.2.2.2.2⟩

/-- C13: both literal checkpoint lists have non-negative, strictly increasing
heights in the order written, hence pairwise distinct heights, so the ordered
map built from each list is the list itself: 12 entries on the production
network and 1 on the test network, none dropped or overwritten. -/
theorem C13_tables_invariant :
    (mapCheckpointsLiteral.Pairwise (fun a b => a.1 < b.1) ∧
        (∀ e ∈ mapCheckpointsLiteral, 0 ≤ e.1) ∧
        (mapKeys mapCheckpointsLiteral).Nodup ∧
        mapCheckpoints = mapCheckpointsLiteral ∧
        mapCheckpointsLiteral.length = 12 ∧ mapCheckpoints.length = 12) ∧
      (mapCheckpointsTestnetLiteral.Pairwise (fun a b => a.1 < b.1) ∧
        (∀ e ∈ mapCheckpointsTestnetLiteral, 0 ≤ e.1) ∧
        (mapKeys mapCheckpointsTestnetLiteral).Nodup ∧
        mapCheckpointsTestnet = mapCheckpointsTestnetLiteral ∧
        mapCheckpointsTestnetLiteral.length = 1 ∧ mapCheckpointsTestnet.length = 1) := by
  have hp : mapCheckpointsLiteral.Pairwise (fun a b => a.1 < b.1) := by decide
  have ht : mapCheckpointsTestnetLiteral.Pairwise (fun a b => a.1 < b.1) := by decide
  have ep : mapCheckpoints = mapCheckpointsLiteral := map_list_of_sorted _ hp
  have et : mapCheckpointsTestnet = mapCheckpointsTestnetLiteral := map_list_of_sorted _ ht
  refine ⟨⟨hp, by decide, mapKeys_nodup_of_sorted _ hp, ep, rfl, ?_⟩,
    ⟨ht, by decide, mapKeys_nodup_of_sorted _ ht, et, rfl, ?_⟩⟩
  · rw [ep]
    rfl
  · rw [et]
    rfl

/-- C14: on either network, for a non-null node with transaction count x ≥ 0 and
timestamp t: if x ≤ L and the clock is strictly later than the last-checkpoint
time, the estimate is a number between 0 and 1; if x > L and the clock is at or
later than t, the estimate is a number greater than 0 and at most 1 (L the
last-checkpoint transaction count of the active table). -/
theorem C14_progress_fraction (fTestNet : Bool) (nNow x t : Int) (hx : 0 ≤ x) :
    (x ≤ (Checkpoints fTestNet).nTransactionsLastCheckpoint →
        (Checkpoints fTestNet).nTimeLastCheckpoint < nNow →
        ∃ v : ℚ, GuessVerificationProgress fTestNet nNow (some ⟨x, t⟩) = some v ∧
          0 ≤ v ∧ v ≤ 1) ∧
      ((Checkpoints fTestNet).nTransactionsLastCheckpoint < x → t ≤ nNow →
        ∃ v : ℚ, GuessVerificationProgress fTestNet nNow (some ⟨x, t⟩) = some v ∧
          0 < v ∧ v ≤ 1) := by
  have hL : (0 : ℚ) ≤ ((Checkpoints fTestNet).nTransactionsLastCheckpoint : ℚ) := by
    exact_mod_cast nTransactionsLastCheckpoint_nonneg fTestNet
  have hxq : (0 : ℚ) ≤ (x : ℚ) := by exact_mod_cast hx
  constructor
  · intro hle hclock
    have hleq : (x : ℚ) ≤ ((Checkpoints fTestNet).nTransactionsLastCheckpoint : ℚ) := by
      exact_mod_cast hle
    have hclockq : ((Checkpoints fTestNet).nTimeLastCheckpoint : ℚ) < (nNow : ℚ) := by
      exact_mod_cast hclock
    have hc : (0 : ℚ) <
        ((nNow : ℚ) - ((Checkpoints fTestNet).nTimeLastCheckpoint : ℚ)) * (125 / 36) := by
      apply mul_pos <;> linarith
    have hd : (0 : ℚ) < ((Checkpoints fTestNet).nTransactionsLastCheckpoint : ℚ) +
        ((nNow : ℚ) - ((Checkpoints fTestNet).nTimeLastCheckpoint : ℚ)) * (125 / 36) := by
      linarith
    rw [progress_before fTestNet nNow x t hle, fdiv_of_pos _ _ hd]
    refine ⟨_, rfl, div_nonneg hxq (le_of_lt hd), ?_⟩
    rw [div_le_one hd]
    linarith
  · intro hlt hclock
    have hltq : ((Checkpoints fTestNet).nTransactionsLastCheckpoint : ℚ) < (x : ℚ) := by
      exact_mod_cast hlt
    have hclockq : (t : ℚ) ≤ (nNow : ℚ) := by exact_mod_cast hclock
    have hc : (0 : ℚ) ≤ ((nNow : ℚ) - (t : ℚ)) * (125 / 36) := by
      apply mul_nonneg <;> linarith
    have hw : (0 : ℚ) < ((Checkpoints fTestNet).nTransactionsLastCheckpoint : ℚ) +
        5 * ((x : ℚ) - ((Checkpoints fTestNet).nTransactionsLastCheckpoint : ℚ)) := by
      linarith
    have hd : (0 : ℚ) < ((Checkpoints fTestNet).nTransactionsLastCheckpoint : ℚ) +
        5 * ((x : ℚ) - ((Checkpoints fTestNet).nTransactionsLastCheckpoint : ℚ)) +
        ((nNow : ℚ) - (t : ℚ)) * (125 / 36) := by
      linarith
    rw [progress_after fTestNet nNow x t hlt, fdiv_of_pos _ _ hd]
    refine ⟨_, rfl, div_pos hw hd, ?_⟩
    rw [div_le_one hd]
    linarith

theorem C14_progress_fraction_witness :
    ((0 : Int) ≤ 3000000) ∧
      ((Checkpoints false).nTransactionsLastCheckpoint < 3000000) ∧
      ((1690000000 : Int) ≤ 1700000000) ∧
      ∃ v : ℚ, GuessVerificationProgress false 1700000000 (some ⟨3000000, 1690000000⟩) = some v ∧
        0 < v ∧ v ≤ 1 :=
  ⟨by decide, by decide, by decide,
    (C14_progress_fraction false 1700000000 3000000 1690000000 (by decide)).2
      (by decide) (by decide)⟩

/-- C15: the estimate is the guarded quotient whose divisor is work-done plus
work-remaining. On the production network (last-checkpoint transaction count
2132261, 60000 transactions per day, factor 5) this divisor is non-zero for
every integer transaction count, node timestamp and clock value, in both
regimes; on the test network it is zero for transaction count 0 when the clock
equals 1392351202, whatever the node timestamp. -/
theorem C15_divisor_zero_cases :
    (∀ (fTestNet : Bool) (nNow : Int) (pindex : CBlockIndex),
        GuessVerificationProgress fTestNet nNow (some pindex) =
          fdiv (fWorkBefore (Checkpoints fTestNet) pindex)
            (fWorkBefore (Checkpoints fTestNet) pindex +
              fWorkAfter (Checkpoints fTestNet) nNow pindex)) ∧
      ((Checkpoints false).nTransactionsLastCheckpoint = 2132261 ∧
        (Checkpoints false).fTransactionsPerDay = 60000 ∧
        fSigcheckVerificationFactor = 5) ∧
      (∀ nNow x t : Int,
        fWorkBefore (Checkpoints false) ⟨x, t⟩ +
          fWorkAfter (Checkpoints false) nNow ⟨x, t⟩ ≠ 0) ∧
      (∀ t : Int,
        fWorkBefore (Checkpoints true) ⟨0, t⟩ +
          fWorkAfter (Checkpoints true) 1392351202 ⟨0, t⟩ = 0) := by
  refine ⟨fun fTestNet nNow pindex =>
      GuessVerificationProgressOn_eq_fdiv (Checkpoints fTestNet) nNow pindex,
    ⟨rfl, rfl, rfl⟩, ?_, ?_⟩
  · intro nNow x t hz
    have hL : (Checkpoints false).nTransactionsLastCheckpoint = 2132261 := rfl
    have hT : (Checkpoints false).nTimeLastCheckpoint = 1646509845 := rfl
    have hr : (Checkpoints false).fTransactionsPerDay = 60000 := rfl
    simp only [fWorkBefore, fWorkAfter, hL, hT, hr, fSigcheckVerificationFactor] at hz
    split_ifs at hz with h
    · have hq : (((36 * 2132261 + 125 * (nNow - 1646509845) : Int)) : ℚ) = 0 := by
        push_cast
        push_cast at hz
        linarith
      have hi : (36 * 2132261 + 125 * (nNow - 1646509845) : Int) = 0 := by exact_mod_cast hq
      omega
    · have hq : (((36 * 2132261 + 180 * (x - 2132261) + 125 * (nNow - t) : Int)) : ℚ) = 0 := by
        push_cast
        push_cast at hz
        linarith
      have hi : (36 * 2132261 + 180 * (x - 2132261) + 125 * (nNow - t) : Int) = 0 := by
        exact_mod_cast hq
      omega
  · intro t
    simp [fWorkBefore, fWorkAfter, Checkpoints, dataTestnet]

/-- C16: with enforcement enabled, on either network, GetTotalBlocksEstimate
returns a height m such that CheckBlock accepts every hash at every height
above m, while at height m itself it accepts exactly one hash. -/
theorem C16_nothing_above_highest (fTestNet : Bool) :
    ∃ m : Int, GetTotalBlocksEstimate true fTestNet = some m ∧
      (∀ (h : Int) (hash : uint256), m < h → CheckBlock true fTestNet h hash = true) ∧
      ∃ H : uint256, ∀ hash : uint256, CheckBlock true fTestNet m hash = true ↔ hash = H := by
  have above : ∀ (m : Int), (∀ k ∈ mapKeys (Checkpoints fTestNet).mapCheckpoints, k ≤ m) →
      ∀ (h : Int) (hash : uint256), m < h → CheckBlock true fTestNet h hash = true := by
    intro m hmax h hash hlt
    have habs : h ∉ mapKeys (Checkpoints fTestNet).mapCheckpoints := by
      intro hmem
      have := hmax h hmem
      omega
    have hfind := mapFind_eq_none_of_not_mem _ h habs
    simp [CheckBlock, hfind]
  have exact : ∀ (m : Int) (H : uint256), (m, H) ∈ (Checkpoints fTestNet).mapCheckpoints →
      ∀ hash : uint256, CheckBlock true fTestNet m hash = true ↔ hash = H := by
    intro m H hmem hash
    have hfind := mapFind_of_mem _ m H (mapKeys_nodup fTestNet) hmem
    simp [CheckBlock, hfind]
  cases fTestNet
  · exact ⟨1719100, by decide, above 1719100 (by decide),
      0xe1572e3497370fc796c9722f28c570db392d284f574eb652cb953e39b14a0127,
      exact 1719100 _ (by decide)⟩
  · exact ⟨0, by decide, above 0 (by decide),
      0x00000052d978f26d698e0c4dbce9f8139a69f2fbda37715149146776aeb70d5b,
      exact 0 _ (by decide)⟩

theorem C16_nothing_above_highest_witness :
    ∃ m : Int, GetTotalBlocksEstimate true false = some m ∧
      (∀ (h : Int) (hash : uint256), m < h → CheckBlock true false h hash = true) ∧
      ∃ H : uint256, ∀ hash : uint256, CheckBlock true false m hash = true ↔ hash = H :=
  C16_nothing_above_highest false

/-- C17: on either network, for a non-null node whose transaction count x is
strictly greater than the last-checkpoint transaction count, the estimate is
exactly 1 if and only if the clock equals the node timestamp; in particular,
whenever the divisor is non-zero the estimate is a number that equals 1 exactly
when the clock equals the node timestamp. -/
theorem C17_progress_one_iff (fTestNet : Bool) (nNow x t : Int)
    (hlt : (Checkpoints fTestNet).nTransactionsLastCheckpoint < x) :
    (GuessVerificationProgress fTestNet nNow (some ⟨x, t⟩) = some 1 ↔ nNow = t) ∧
      (fWorkBefore (Checkpoints fTestNet) ⟨x, t⟩ +
          fWorkAfter (Checkpoints fTestNet) nNow ⟨x, t⟩ ≠ 0 →
        ∃ v : ℚ, GuessVerificationProgress fTestNet nNow (some ⟨x, t⟩) = some v ∧
          (v = 1 ↔ nNow = t)) := by
  have hL : (0 : ℚ) ≤ ((Checkpoints fTestNet).nTransactionsLastCheckpoint : ℚ) := by
    exact_mod_cast nTransactionsLastCheckpoint_nonneg fTestNet
  have hltq : ((Checkpoints fTestNet).nTransactionsLastCheckpoint : ℚ) < (x : ℚ) := by
    exact_mod_cast hlt
  have key : GuessVerificationProgress fTestNet nNow (some ⟨x, t⟩) = some 1 ↔ nNow = t := by
    rw [progress_after fTestNet nNow x t hlt, fdiv_eq_some_iff]
    constructor
    · rintro ⟨hne, hdiv⟩
      rw [div_eq_one_iff_eq hne] at hdiv
      have hq : (nNow : ℚ) = (t : ℚ) := by linarith
      exact_mod_cast hq
    · intro heq
      subst heq
      have hw : ((Checkpoints fTestNet).nTransactionsLastCheckpoint : ℚ) +
          5 * ((x : ℚ) - ((Checkpoints fTestNet).nTransactionsLastCheckpoint : ℚ)) +
          ((nNow : ℚ) - (nNow : ℚ)) * (125 / 36) ≠ 0 := by
        have : (0 : ℚ) < ((Checkpoints fTestNet).nTransactionsLastCheckpoint : ℚ) +
            5 * ((x : ℚ) - ((Checkpoints fTestNet).nTransactionsLastCheckpoint : ℚ)) +
            ((nNow : ℚ) - (nNow : ℚ)) * (125 / 36) := by
          linarith
        exact ne_of_gt this
      refine ⟨hw, ?_⟩
      rw [div_eq_one_iff_eq hw]
      ring
  refine ⟨key, fun hne => ?_⟩
  have hq : GuessVerificationProgress fTestNet nNow (some ⟨x, t⟩) =
      some (fWorkBefore (Checkpoints fTestNet) ⟨x, t⟩ /
        (fWorkBefore (Checkpoints fTestNet) ⟨x, t⟩ +
          fWorkAfter (Checkpoints fTestNet) nNow ⟨x, t⟩)) := by
    show GuessVerificationProgressOn (Checkpoints fTestNet) nNow ⟨x, t⟩ = _
    rw [GuessVerificationProgressOn_eq_fdiv, fdiv, if_neg hne]
  refine ⟨_, hq, ?_⟩
  rw [← key, hq]
  exact ⟨fun h => by rw [h], fun h => Option.some.inj h⟩

theorem C17_progress_one_iff_witness :
    ((Checkpoints false).nTransactionsLastCheckpoint < 3000000) ∧
      (GuessVerificationProgress false 1700000000 (some ⟨3000000, 1700000000⟩) = some 1 ↔
        (1700000000 : Int) = 1700000000) :=
  ⟨by decide, (C17_progress_one_iff false 1700000000 3000000 1700000000 (by decide)).1⟩

end Checkpoints
